import Mathlib

/-!
Shallow embedding of the web package (Respond, RespondError,
zipkinSetErrorOnSpan) and of the Panics middleware from
noelruault/go-callback-service, with theorems checking the documented
behaviour of the response path against these definitions.

Conventions of the embedding:
- the request context is modelled as the Option of the request-scoped
  Values struct it may carry under KeyValues;
- the slice of http.ResponseWriter state these functions touch is a
  record (content-type header, written status line, body, and a fault
  flag telling whether a Write call fails);
- log.Fatal is an outcome of its own, carrying the writer state at the
  moment the process exits (deferred calls do not run after os.Exit);
- json.Marshal is a parameter for the generic Respond, and is given
  concretely for ErrorResponse, the one payload RespondError builds.
-/

/-- Request-scoped values stored in the context under KeyValues, with the
fields this code reads and writes (StatusCode is set by Respond, TraceID
is read by the Panics middleware). -/
structure Values where
  StatusCode : Int
  TraceID : String
deriving DecidableEq, Repr

/-- The observable state of the http.ResponseWriter as used here: the
Content-Type header, the status line once written, the accumulated body,
and a fault flag saying whether a Write on this connection fails. -/
structure ResponseWriter where
  contentType : Option String
  status : Option Int
  body : String
  failWrite : Bool
deriving DecidableEq, Repr

/-- w.WriteHeader(code): net/http sends the status line once; a later call
is ignored. -/
def writeHeader (w : ResponseWriter) (code : Int) : ResponseWriter :=
  match w.status with
  | none => { w with status := some code }
  | some _ => w

/-- w.Write(p): appends to the body, or fails when the connection does. -/
def writeBody (w : ResponseWriter) (p : String) : Except String ResponseWriter :=
  if w.failWrite then Except.error "write error"
  else Except.ok { w with body := w.body ++ p }

/-- One hexadecimal digit, lower case, as encoding/json prints it. -/
def hexDigit (n : Nat) : Char :=
  if n < 10 then Char.ofNat (48 + n) else Char.ofNat (87 + n)

/-- encoding/json escaping of one character of a string value, with the
default HTML escaping of json.Marshal. -/
def jsonEscapeChar (c : Char) : String :=
  if c = '"' then "\\\""
  else if c = '\\' then "\\\\"
  else if c = '\n' then "\\n"
  else if c = '\r' then "\\r"
  else if c = '\t' then "\\t"
  else if c = '<' then "\\u003c"
  else if c = '>' then "\\u003e"
  else if c = '&' then "\\u0026"
  else if c.toNat < 32 then
    "\\u00" ++ String.singleton (hexDigit (c.toNat / 16))
      ++ String.singleton (hexDigit (c.toNat % 16))
  else if c.toNat = 8232 then "\\u2028"
  else if c.toNat = 8233 then "\\u2029"
  else String.singleton c

/-- encoding/json rendering of a string value, quotes included. -/
def jsonQuote (s : String) : String :=
  "\"" ++ String.join (s.toList.map jsonEscapeChar) ++ "\""

/-- ErrorResponse, the envelope used for API failure responses; the json
tags are error and message. -/
structure ErrorResponse where
  Error : String
  Detail : String
deriving DecidableEq, Repr

/-- json.Marshal of an ErrorResponse value (it cannot fail: a struct of two
strings always marshals). -/
def marshalErrorResponse (er : ErrorResponse) : String :=
  "\x7b\"error\":" ++ jsonQuote er.Error ++ ",\"message\":" ++ jsonQuote er.Detail ++ "\x7d"

/-- json.Marshal as the Except-valued serializer Respond expects, at type
ErrorResponse. -/
def errorResponseMarshal : ErrorResponse → Except String String :=
  fun er => Except.ok (marshalErrorResponse er)

/-- What one call to Respond does to the world: fatal is log.Fatal (the
process exits; the writer is carried as it stood), err and ok carry the
returned error, the Values struct and the writer after the call. -/
inductive Outcome where
  | fatal (w : ResponseWriter)
  | err (e : String) (v : Values) (w : ResponseWriter)
  | ok (v : Values) (w : ResponseWriter)
deriving DecidableEq, Repr

/-- The writer state an outcome leaves behind. -/
def Outcome.writer : Outcome → ResponseWriter
  | .fatal w => w
  | .err _ _ w => w
  | .ok _ w => w

/-- web.Respond: checks the context for the Values struct (log.Fatal when
absent), records the status code into it, short-circuits on 204, then
marshals the data and writes content-type, status line and body. -/
def Respond {α : Type} (marshal : α → Except String String) (ctx : Option Values)
    (w : ResponseWriter) (data : α) (statusCode : Int) : Outcome :=
  match ctx with
  | none => Outcome.fatal w
  | some v0 =>
    let v : Values := { v0 with StatusCode := statusCode }
    if statusCode = 204 then
      Outcome.ok v (writeHeader w statusCode)
    else
      match marshal data with
      | Except.error e => Outcome.err e v w
      | Except.ok res =>
        let w1 := { w with contentType := some "application/json; charset=utf-8" }
        let w2 := writeHeader w1 statusCode
        match writeBody w2 res with
        | Except.error e => Outcome.err e v w2
        | Except.ok w3 => Outcome.ok v w3

/-- The span status record set by SetStatus. -/
structure SpanStatus where
  Code : Int
deriving DecidableEq, Repr

/-- The slice of an opencensus trace span this code touches: attributes
added, the status set, and whether End ran. -/
structure Span where
  attributes : List (String × String)
  status : Option SpanStatus
  ended : Bool
deriving DecidableEq, Repr

/-- trace.StartSpan: a fresh span. -/
def startSpan : Span := { attributes := [], status := none, ended := false }

/-- span.AddAttributes with one string attribute. -/
def addAttribute (s : Span) (kv : String × String) : Span :=
  { s with attributes := s.attributes ++ [kv] }

/-- zipkinSetErrorOnSpan: attach error = errcode; when errmessage is
non-empty attach message = errmessage; set the span status code. -/
def zipkinSetErrorOnSpan (span : Span) (errcode errmessage : String)
    (statusCode : Int) : Span :=
  let s1 := addAttribute span ("error", errcode)
  let s2 := if errmessage ≠ "" then addAttribute s1 ("message", errmessage) else s1
  { s2 with status := some { Code := statusCode } }

/-- Go error values as this package distinguishes them: an implementation
of the PublicError interface (Code and Detail), an opaque error, or a
pkg/errors wrapper around a cause. -/
inductive GoError where
  | publicErr (code detail : String)
  | opaqueErr (msg : String)
  | wrapped (msg : String) (inner : GoError)
deriving DecidableEq, Repr

/-- errors.Cause: follows the causer chain down to the root error. -/
def GoError.cause : GoError → GoError
  | .wrapped _ inner => inner.cause
  | e => e

/-- errors.Cause on a possibly nil error value; Cause of nil is nil. -/
def errorsCause : Option GoError → Option GoError
  | none => none
  | some e => some e.cause

/-- Whether the type switch arm for PublicError matches the root cause; a
nil interface value matches no interface case. -/
def matchesPublicError : Option GoError → Bool
  | some (.publicErr _ _) => true
  | _ => false

/-- int32(n): two's-complement truncation of a Go int to 32 bits. -/
def toInt32 (n : Int) : Int := (n + 2 ^ 31) % 2 ^ 32 - 2 ^ 31

/-- The result of RespondError: the span it opened (with whatever was
tagged on it, and whether End ran) and the outcome of the delegated
Respond call. -/
structure RespondErrorResult where
  span : Span
  outcome : Outcome
deriving DecidableEq, Repr

/-- The deferred span.End runs on every return path, but not when the
process exits through log.Fatal inside the delegated Respond. -/
def endSpan (s : Span) : Outcome → Span
  | Outcome.fatal _ => s
  | _ => { s with ended := true }

/-- web.RespondError: opens a span, switches on the root cause of the
error, tags the span and delegates to Respond with either the public
code and detail at the status given by the caller, or the fixed
Internal Server Error envelope at 500. -/
def RespondError (ctx : Option Values) (w : ResponseWriter)
    (err : Option GoError) (statusCode : Int) : RespondErrorResult :=
  let span := startSpan
  match errorsCause err with
  | some (GoError.publicErr c d) =>
    let span1 := zipkinSetErrorOnSpan span c d (toInt32 statusCode)
    let o := Respond errorResponseMarshal ctx w { Error := c, Detail := d } statusCode
    { span := endSpan span1 o, outcome := o }
  | _ =>
    let span1 := zipkinSetErrorOnSpan span "server_error" "" (toInt32 500)
    let o := Respond errorResponseMarshal ctx w
      { Error := "Internal Server Error", Detail := "" } 500
    { span := endSpan span1 o, outcome := o }

/-- What the downstream handler wrapped by the middleware does on one
request: return normally, or panic with a value (its fmt rendering),
leaving the writer in some state either way. -/
inductive HandlerResult where
  | normal (w : ResponseWriter)
  | panicked (pv : String) (w : ResponseWriter)
deriving DecidableEq, Repr

/-- The result of one request through the Panics middleware: fatal is the
log.Fatal on a missing Values struct; done means control returned to the
caller (a panic, if any, was recovered), with the log lines printed. -/
inductive PanicsResult where
  | fatal (w : ResponseWriter)
  | done (w : ResponseWriter) (logs : List String)
deriving DecidableEq, Repr

/-- middleware.Panics: opens a span, fetches the Values struct (log.Fatal
when absent), installs the recovery guard, and calls the downstream
handler; a recovered panic is logged as the panic value and then the
trace id with the stack of the goroutine. -/
def Panics (ctx : Option Values) (w : ResponseWriter)
    (after : Option Values → ResponseWriter → HandlerResult)
    (stack : String) : PanicsResult :=
  match ctx with
  | none => PanicsResult.fatal w
  | some v =>
    match after (some v) w with
    | HandlerResult.normal w1 => PanicsResult.done w1 []
    | HandlerResult.panicked pv w1 =>
      PanicsResult.done w1 ["panic: " ++ pv, v.TraceID ++ " :\n" ++ stack]

/-! Theorems -/

/-- writeHeader only touches the status field: contentType is kept. -/
@[simp]
theorem writeHeader_contentType (w : ResponseWriter) (c : Int) :
    (writeHeader w c).contentType = w.contentType := by
  unfold writeHeader
  cases w.status <;> rfl

/-- writeHeader only touches the status field: the body is kept. -/
@[simp]
theorem writeHeader_body (w : ResponseWriter) (c : Int) :
    (writeHeader w c).body = w.body := by
  unfold writeHeader
  cases w.status <;> rfl

/-- writeHeader only touches the status field: the fault flag is kept. -/
@[simp]
theorem writeHeader_failWrite (w : ResponseWriter) (c : Int) :
    (writeHeader w c).failWrite = w.failWrite := by
  unfold writeHeader
  cases w.status <;> rfl

/-- writeHeader on a writer with no status line yet writes the given one. -/
theorem writeHeader_fresh (w : ResponseWriter) (c : Int) (h : w.status = none) :
    writeHeader w c = { w with status := some c } := by
  unfold writeHeader
  rw [h]

/-- Claim C3: with the Values struct present, a status other than 204, a
value whose serialization succeeds, and a fresh writer whose write
succeeds, Respond sets Content-Type to application/json; charset=utf-8,
writes the given status line, and emits exactly one body equal to the
serialization of the value. -/
theorem C3_respond_json {α : Type} (marshal : α → Except String String)
    (v : Values) (w : ResponseWriter) (data : α) (statusCode : Int)
    (res : String) (hS : statusCode ≠ 204) (hm : marshal data = Except.ok res)
    (hst : w.status = none) (hw : w.failWrite = false) :
    Respond marshal (some v) w data statusCode =
      Outcome.ok { v with StatusCode := statusCode }
        { contentType := some "application/json; charset=utf-8",
          status := some statusCode,
          body := w.body ++ res,
          failWrite := false } := by
  obtain ⟨ct, st, bd, fw⟩ := w
  simp only [ResponseWriter.status] at hst
  simp only [ResponseWriter.failWrite] at hw
  subst hst hw
  simp [Respond, hS, hm, writeHeader, writeBody]

/-- Claim C3 witness at a concrete input. -/
theorem C3_witness :
    Respond errorResponseMarshal (some { StatusCode := 200, TraceID := "t" })
        { contentType := none, status := none, body := "", failWrite := false }
        { Error := "ok", Detail := "" } 201 =
      Outcome.ok { StatusCode := 201, TraceID := "t" }
        { contentType := some "application/json; charset=utf-8",
          status := some 201,
          body := "" ++ marshalErrorResponse { Error := "ok", Detail := "" },
          failWrite := false } :=
  C3_respond_json errorResponseMarshal { StatusCode := 200, TraceID := "t" }
    { contentType := none, status := none, body := "", failWrite := false }
    { Error := "ok", Detail := "" } 201
    (marshalErrorResponse { Error := "ok", Detail := "" }) (by decide) rfl rfl rfl

/-- Claim C4: at status 204 with the Values struct present, Respond writes
only the status line and returns nil: body and content-type are untouched,
and the value is never serialized (the result does not depend on the value
or on the serializer). -/
theorem C4_respond_no_content {α : Type} (marshal : α → Except String String)
    (v : Values) (w : ResponseWriter) (data : α) :
    Respond marshal (some v) w data 204 =
        Outcome.ok { v with StatusCode := 204 } (writeHeader w 204)
      ∧ (writeHeader w 204).body = w.body
      ∧ (writeHeader w 204).contentType = w.contentType
      ∧ ∀ (β : Type) (marshal2 : β → Except String String) (data2 : β),
          Respond marshal2 (some v) w data2 204 = Respond marshal (some v) w data 204 := by
  refine ⟨by simp [Respond], ?_, ?_, fun β marshal2 data2 => by simp [Respond]⟩
  · unfold writeHeader
    cases w.status <;> rfl
  · unfold writeHeader
    cases w.status <;> rfl

/-- Claim C5: with the Values struct present, Respond returns an error
exactly when the status is not 204 and either serialization of the value
fails or the write of the serialized bytes fails; on a serialization
failure the error comes back with the writer untouched (no body, no
content-type, no status line). -/
theorem C5_respond_error_paths {α : Type} (marshal : α → Except String String)
    (v : Values) (w : ResponseWriter) (data : α) (statusCode : Int) :
    ((∃ e vv ww, Respond marshal (some v) w data statusCode = Outcome.err e vv ww) ↔
      (statusCode ≠ 204 ∧ ((∃ e, marshal data = Except.error e) ∨ w.failWrite = true)))
    ∧ ∀ e, marshal data = Except.error e → statusCode ≠ 204 →
        Respond marshal (some v) w data statusCode =
          Outcome.err e { v with StatusCode := statusCode } w := by
  constructor
  · by_cases hS : statusCode = 204
    · subst hS
      simp [Respond]
    · cases hm : marshal data with
      | error e =>
        simp [Respond, hS, hm]
      | ok res =>
        cases hw : w.failWrite with
        | false => simp [Respond, hS, hm, writeBody, hw]
        | true => simp [Respond, hS, hm, writeBody, hw]
  · intro e hm hS
    simp [Respond, hS, hm]

/-- Claim C9: Respond records the status code into the Values struct before
the 204 check and before serialization, so on a serialization failure the
returned error carries a Values struct whose StatusCode is already the
requested status even though nothing was written. -/
theorem C9_status_recorded_before_marshal {α : Type}
    (marshal : α → Except String String) (v : Values) (w : ResponseWriter)
    (data : α) (statusCode : Int) (e : String)
    (hm : marshal data = Except.error e) (hS : statusCode ≠ 204) :
    Respond marshal (some v) w data statusCode =
      Outcome.err e { StatusCode := statusCode, TraceID := v.TraceID } w := by
  simp [Respond, hS, hm]

/-- Claim C9 witness at a concrete input: a serializer that fails. -/
theorem C9_witness :
    Respond (fun _ : ErrorResponse => (Except.error "boom" : Except String String))
        (some { StatusCode := 200, TraceID := "t" })
        { contentType := none, status := none, body := "", failWrite := false }
        { Error := "x", Detail := "y" } 500 =
      Outcome.err "boom" { StatusCode := 500, TraceID := "t" }
        { contentType := none, status := none, body := "", failWrite := false } :=
  C9_status_recorded_before_marshal
    (fun _ : ErrorResponse => (Except.error "boom" : Except String String))
    { StatusCode := 200, TraceID := "t" }
    { contentType := none, status := none, body := "", failWrite := false }
    { Error := "x", Detail := "y" } 500 "boom" rfl (by decide)

/-- Claim C8: the span-tagging sub-routine always attaches a string
attribute error = errcode, attaches message = errmessage exactly when
errmessage is non-empty, and sets the span status code to the given
number. -/
theorem C8_zipkin_tags (span : Span) (errcode errmessage : String)
    (statusCode : Int) :
    (zipkinSetErrorOnSpan span errcode errmessage statusCode).attributes =
        span.attributes ++ [("error", errcode)] ++
          (if errmessage = "" then [] else [("message", errmessage)])
    ∧ (zipkinSetErrorOnSpan span errcode errmessage statusCode).status =
        some { Code := statusCode }
    ∧ (zipkinSetErrorOnSpan span errcode errmessage statusCode).ended = span.ended := by
  by_cases h : errmessage = "" <;>
    simp [zipkinSetErrorOnSpan, addAttribute, h]

/-- Claim C7: a missing Values struct in the context is fatal in both
components, before any byte of the response is written (the writer is
carried out untouched) and before the downstream handler runs (the result
does not depend on it). -/
theorem C7_missing_values_fatal (w : ResponseWriter) :
    (∀ (α : Type) (marshal : α → Except String String) (data : α)
        (statusCode : Int),
        Respond marshal none w data statusCode = Outcome.fatal w)
    ∧ ∀ (after : Option Values → ResponseWriter → HandlerResult)
        (stack : String),
        Panics none w after stack = PanicsResult.fatal w :=
  ⟨fun _ _ _ _ => rfl, fun _ _ => rfl⟩

/-- Claim C6: when the downstream handler panics with value pv, the Panics
middleware does not propagate the panic: it returns normally with the
writer exactly as the handler left it, and logs first a line containing
the panic value, then a line with the trace identifier and the stack. -/
theorem C6_panics_recovers (v : Values) (w w1 : ResponseWriter)
    (after : Option Values → ResponseWriter → HandlerResult)
    (stack pv : String)
    (hp : after (some v) w = HandlerResult.panicked pv w1) :
    Panics (some v) w after stack =
      PanicsResult.done w1 ["panic: " ++ pv, v.TraceID ++ " :\n" ++ stack] := by
  simp [Panics, hp]

/-- Claim C6 witness at a concrete input: a handler that panics. -/
theorem C6_witness :
    Panics (some { StatusCode := 200, TraceID := "t" })
        { contentType := none, status := none, body := "", failWrite := false }
        (fun _ w => HandlerResult.panicked "boom" w) "stacktrace" =
      PanicsResult.done
        { contentType := none, status := none, body := "", failWrite := false }
        ["panic: boom", "t :\nstacktrace"] :=
  C6_panics_recovers { StatusCode := 200, TraceID := "t" }
    { contentType := none, status := none, body := "", failWrite := false }
    { contentType := none, status := none, body := "", failWrite := false }
    (fun _ w => HandlerResult.panicked "boom" w) "stacktrace" "boom" rfl

/-- Claim C1 counterexample: for the public error with code C and detail D
and caller-supplied status 204, RespondError delegates to Respond, which
short-circuits on 204 and writes no body at all, so the emitted body is
not the envelope the claim promises. -/
theorem C1_counterexample :
    (RespondError (some { StatusCode := 200, TraceID := "t" })
          { contentType := none, status := none, body := "", failWrite := false }
          (some (GoError.publicErr "C" "D")) 204).outcome.writer.body = ""
      ∧ marshalErrorResponse { Error := "C", Detail := "D" } ≠ "" := by
  constructor
  · rfl
  · decide

/-- Claim C1 (amended): for an error whose root cause is a public error
with code c and detail d, RespondError tags the span with c, d and the
given status, and delegates to Respond with that status and the envelope
built from c and d; when the status is not 204 and the write succeeds,
the emitted body is the JSON envelope and the status line is the given
status. -/
theorem C1_respondError_public (v : Values) (w : ResponseWriter)
    (err : GoError) (c d : String) (statusCode : Int)
    (hc : err.cause = GoError.publicErr c d) (hS : statusCode ≠ 204)
    (hst : w.status = none) (hw : w.failWrite = false) :
    RespondError (some v) w (some err) statusCode =
      { span :=
          { attributes :=
              if d = "" then [("error", c)] else [("error", c), ("message", d)],
            status := some { Code := toInt32 statusCode },
            ended := true },
        outcome :=
          Outcome.ok { v with StatusCode := statusCode }
            { contentType := some "application/json; charset=utf-8",
              status := some statusCode,
              body := w.body ++ marshalErrorResponse { Error := c, Detail := d },
              failWrite := false } } := by
  obtain ⟨ct, st, bd, fw⟩ := w
  simp only [ResponseWriter.status] at hst
  simp only [ResponseWriter.failWrite] at hw
  subst hst hw
  by_cases hd : d = "" <;>
    simp [RespondError, errorsCause, hc, Respond, errorResponseMarshal, hS,
      writeHeader, writeBody, zipkinSetErrorOnSpan, addAttribute, startSpan,
      endSpan, hd]

/-- Claim C1 witness at a concrete input: a wrapped public error, status
409. -/
theorem C1_witness :
    RespondError (some { StatusCode := 200, TraceID := "t" })
        { contentType := none, status := none, body := "", failWrite := false }
        (some (GoError.wrapped "ctx" (GoError.publicErr "conflict" "dup"))) 409 =
      { span :=
          { attributes :=
              if "dup" = "" then [("error", "conflict")]
              else [("error", "conflict"), ("message", "dup")],
            status := some { Code := toInt32 409 },
            ended := true },
        outcome :=
          Outcome.ok { StatusCode := 409, TraceID := "t" }
            { contentType := some "application/json; charset=utf-8",
              status := some 409,
              body := "" ++ marshalErrorResponse { Error := "conflict", Detail := "dup" },
              failWrite := false } } :=
  C1_respondError_public { StatusCode := 200, TraceID := "t" }
    { contentType := none, status := none, body := "", failWrite := false }
    (GoError.wrapped "ctx" (GoError.publicErr "conflict" "dup"))
    "conflict" "dup" 409 rfl (by decide) rfl rfl

/-- Claim C2: when the root cause of the error does not implement
PublicError, RespondError ignores the caller-supplied status code and
delegates to Respond with status 500 and the fixed envelope whose error
field is Internal Server Error and whose message is empty; the result is
the same for every such error, leaking nothing of its content. -/
theorem C2_respondError_opaque (v : Values) (w : ResponseWriter)
    (err : Option GoError) (statusCode : Int)
    (hnp : matchesPublicError (errorsCause err) = false)
    (hst : w.status = none) (hw : w.failWrite = false) :
    (RespondError (some v) w err statusCode).outcome =
      Outcome.ok { v with StatusCode := 500 }
        { contentType := some "application/json; charset=utf-8",
          status := some 500,
          body := w.body ++
            marshalErrorResponse { Error := "Internal Server Error", Detail := "" },
          failWrite := false } := by
  obtain ⟨ct, st, bd, fw⟩ := w
  simp only [ResponseWriter.status] at hst
  simp only [ResponseWriter.failWrite] at hw
  subst hst hw
  rcases hec : errorsCause err with _ | e
  · simp [RespondError, hec, Respond, errorResponseMarshal, writeHeader, writeBody]
  · cases e with
    | publicErr c d =>
      rw [hec] at hnp
      simp [matchesPublicError] at hnp
    | opaqueErr m =>
      simp [RespondError, hec, Respond, errorResponseMarshal, writeHeader, writeBody]
    | wrapped m inner =>
      simp [RespondError, hec, Respond, errorResponseMarshal, writeHeader, writeBody]

/-- Claim C2 witness at a concrete input: an opaque error, caller status
418; the response is still 500 with the fixed envelope. -/
theorem C2_witness :
    (RespondError (some { StatusCode := 200, TraceID := "t" })
          { contentType := none, status := none, body := "", failWrite := false }
          (some (GoError.opaqueErr "db down")) 418).outcome =
      Outcome.ok { StatusCode := 500, TraceID := "t" }
        { contentType := some "application/json; charset=utf-8",
          status := some 500,
          body := "" ++
            marshalErrorResponse { Error := "Internal Server Error", Detail := "" },
          failWrite := false } :=
  C2_respondError_opaque { StatusCode := 200, TraceID := "t" }
    { contentType := none, status := none, body := "", failWrite := false }
    (some (GoError.opaqueErr "db down")) 418 rfl rfl rfl

/-- Claim C10: RespondError on a nil error value runs the default branch:
the unwrapped cause is still nil and matches no PublicError, so the
response is 500 with the fixed envelope and the span is tagged
server_error with status 500, as for any opaque error. -/
theorem C10_respondError_nil (v : Values) (w : ResponseWriter)
    (statusCode : Int) (hst : w.status = none) (hw : w.failWrite = false) :
    RespondError (some v) w none statusCode =
      { span :=
          { attributes := [("error", "server_error")],
            status := some { Code := 500 },
            ended := true },
        outcome :=
          Outcome.ok { v with StatusCode := 500 }
            { contentType := some "application/json; charset=utf-8",
              status := some 500,
              body := w.body ++
                marshalErrorResponse { Error := "Internal Server Error", Detail := "" },
              failWrite := false } } := by
  obtain ⟨ct, st, bd, fw⟩ := w
  simp only [ResponseWriter.status] at hst
  simp only [ResponseWriter.failWrite] at hw
  subst hst hw
  simp [RespondError, errorsCause, Respond, errorResponseMarshal, writeHeader,
    writeBody, zipkinSetErrorOnSpan, addAttribute, startSpan, endSpan]
  decide

/-- Claim C10 witness at a concrete input. -/
theorem C10_witness :
    RespondError (some { StatusCode := 200, TraceID := "t" })
        { contentType := none, status := none, body := "", failWrite := false }
        none 302 =
      { span :=
          { attributes := [("error", "server_error")],
            status := some { Code := 500 },
            ended := true },
        outcome :=
          Outcome.ok { StatusCode := 500, TraceID := "t" }
            { contentType := some "application/json; charset=utf-8",
              status := some 500,
              body := "" ++
                marshalErrorResponse { Error := "Internal Server Error", Detail := "" },
              failWrite := false } } :=
  C10_respondError_nil { StatusCode := 200, TraceID := "t" }
    { contentType := none, status := none, body := "", failWrite := false }
    302 rfl rfl
